import Mathlib

/-!
Verification of the platform-probing layer of a system-information fetcher.

The Rust sources are shallowly embedded: Rust strings become lists of
characters, the operating-system surface (pseudo-files, environment
variables, executables on PATH, directory listings, subprocess output)
becomes an explicit environment record, and each probe of src/info.rs and
the cache codec of src/cache.rs becomes a total Lean function over that
environment. Machine integers are modelled as Nat with explicit reduction
modulo 2 to the word width where the Rust code can wrap.
-/

namespace UwuFetch

/-- Rust strings are modelled as lists of characters. -/
abbrev Str := List Char

/-- Embed a Lean string literal as a character list. -/
def str (s : String) : Str := s.data

/-- The newline character, written via its code point. -/
def chNL : Char := Char.ofNat 10

/-- The carriage-return character, written via its code point. -/
def chCR : Char := Char.ofNat 13

/-- The double-quote character, written via its code point. -/
def chQuote : Char := Char.ofNat 34

/-- Split a character list at every occurrence of a separator, keeping
empty pieces, as the Rust split iterator does. The result is never empty. -/
def splitOnChar (c : Char) : Str → List Str
  | [] => [[]]
  | x :: xs =>
    if x = c then [] :: splitOnChar c xs
    else
      match splitOnChar c xs with
      | [] => [[x]]
      | y :: ys => (x :: y) :: ys

/-- Split at the first occurrence of a separator, as Rust split_once. -/
def splitOnce (c : Char) : Str → Option (Str × Str)
  | [] => none
  | x :: xs =>
    if x = c then some ([], xs)
    else
      match splitOnce c xs with
      | none => none
      | some (a, b) => some (x :: a, b)

/-- Remove one trailing carriage return, as the Rust line iterators do
for lines that end in a carriage return before the newline. -/
def stripCR (l : Str) : Str :=
  if l.getLast? = some chCR then l.dropLast else l

/-- Assemble the pieces produced by splitting on newline into lines:
every piece but the last loses a trailing carriage return, and a final
empty piece, coming from a trailing newline, is dropped. -/
def linesAux : List Str → List Str
  | [] => []
  | [p] => if p = [] then [] else [p]
  | p :: q :: ps => stripCR p :: linesAux (q :: ps)

/-- The Rust lines iterator over a string. -/
def lines (s : Str) : List Str := linesAux (splitOnChar chNL s)

/-- Drop leading whitespace. -/
def trimLeftStr (s : Str) : Str := s.dropWhile Char.isWhitespace

/-- Drop trailing whitespace. -/
def trimRightStr (s : Str) : Str := (s.reverse.dropWhile Char.isWhitespace).reverse

/-- The Rust trim: drop whitespace at both ends. -/
def trim (s : Str) : Str := trimRightStr (trimLeftStr s)

/-- The Rust trim_matches with a single character pattern: strip every
occurrence of the character from both ends. -/
def trimMatchesChar (c : Char) (s : Str) : Str :=
  ((s.dropWhile (· = c)).reverse.dropWhile (· = c)).reverse

/-- The Rust trim_end_matches with a single character pattern. -/
def trimEndMatchesChar (c : Char) (s : Str) : Str :=
  (s.reverse.dropWhile (· = c)).reverse

/-- Accumulator-based splitting on whitespace runs. -/
def splitWSAux : Str → Str → List Str
  | [], acc => if acc = [] then [] else [acc.reverse]
  | c :: cs, acc =>
    if c.isWhitespace then
      if acc = [] then splitWSAux cs [] else acc.reverse :: splitWSAux cs []
    else splitWSAux cs (c :: acc)

/-- The Rust split_whitespace: maximal non-whitespace runs, no empties. -/
def splitWS (s : Str) : List Str := splitWSAux s []

/-- First index at which a pattern occurs as a contiguous sublist, as the
Rust find with a string pattern (character index; the sources only search
ASCII text, where character and byte indices agree). -/
def findSub (pat : Str) : Str → Option Nat
  | [] => if pat = [] then some 0 else none
  | c :: rest =>
    if pat.isPrefixOf (c :: rest) then some 0
    else (findSub pat rest).map (· + 1)

/-- The Rust contains with a string pattern. -/
def containsSub (pat : Str) (s : Str) : Bool := (findSub pat s).isSome

/-- Fuel-based decimal printing of a natural number, least significant
digit last; the fuel argument makes the recursion structural. -/
def natToCharsAux : Nat → Nat → Str
  | 0, _ => []
  | fuel + 1, n =>
    if n < 10 then [Nat.digitChar n]
    else natToCharsAux fuel (n / 10) ++ [Nat.digitChar (n % 10)]

/-- Decimal printing of a natural number, as the Rust Display of the
unsigned integer types. -/
def natToChars (n : Nat) : Str := natToCharsAux (n + 1) n

/-- Value of a digit string read most significant digit first. -/
def digitsVal (s : Str) : Nat := s.foldl (fun a c => a * 10 + (c.toNat - 48)) 0

/-- A non-empty all-digit string. -/
def isDigits (s : Str) : Bool := !s.isEmpty && s.all Char.isDigit

/-- The Rust unsigned-integer FromStr without the bound check: an
optional leading plus sign followed by at least one decimal digit. -/
def parseNatStr (s : Str) : Option Nat :=
  let t := match s with
    | '+' :: r => r
    | _ => s
  if isDigits t then some (digitsVal t) else none

/-- The Rust unsigned-integer FromStr for a word of the given bound:
parse a decimal numeral and fail on overflow. -/
def parseBounded (bound : Nat) (s : Str) : Option Nat :=
  match parseNatStr s with
  | some n => if n < bound then some n else none
  | none => none

/-- parse to u32. -/
def parseU32 (s : Str) : Option Nat := parseBounded (2 ^ 32) s

/-- parse to u64. -/
def parseU64 (s : Str) : Option Nat := parseBounded (2 ^ 64) s

/-- The decimal fragment of the Rust f64 FromStr followed by the cast
to u64, which truncates toward zero: an optional plus sign, an integer
part and an optional fractional part, at least one digit overall; the
value is the integer part. Exponent and special forms, never produced by
the uptime pseudo-file this models, are not represented. -/
def parseFloatFloor (s : Str) : Option Nat :=
  let t := match s with
    | '+' :: r => r
    | _ => s
  match splitOnce '.' t with
  | some (a, b) =>
    if a.all Char.isDigit && b.all Char.isDigit && !(a.isEmpty && b.isEmpty) then
      some (digitsVal a)
    else none
  | none => if isDigits t then some (digitsVal t) else none

/-- Wrapping subtraction of u64 values, as release-mode Rust computes
a - b on u64 operands. Both arguments are assumed reduced below 2 to
the 64. -/
def sub64 (a b : Nat) : Nat := (a + 2 ^ 64 - b) % 2 ^ 64

/-- One entry of a directory listing: its file name, its full path and
whether it is a directory. -/
structure DirEntry where
  name : Str
  path : Str
  isDir : Bool
deriving DecidableEq

/-- The operating-system surface the probes consult: readable
pseudo-files, path-existence and file tests, environment variables,
captured standard output of subprocesses (none when spawning fails) and
directory listings (none when the directory cannot be read). -/
structure Env where
  readFile : Str → Option Str
  pathExists : Str → Bool
  isFile : Str → Bool
  getEnv : Str → Option Str
  cmdOut : Str → List Str → Option Str
  readDir : Str → Option (List DirEntry)

/-- Join a directory path and a file name with a slash, as the Rust
PathBuf join does for relative right operands. -/
def joinPath (d f : Str) : Str :=
  if d = [] then f
  else if d.getLast? = some '/' then d ++ f else d ++ '/' :: f

/-- The which helper of src/info.rs: split the PATH variable on colons
and test whether any component joined with the command names a file. -/
def which (env : Env) (cmd : Str) : Bool :=
  match env.getEnv (str "PATH") with
  | some paths => (splitOnChar ':' paths).any fun d => env.isFile (joinPath d cmd)
  | none => false

/-- The Fact Registry: the SystemInfo record of src/info.rs. -/
structure SystemInfo where
  user : Str
  host : Str
  os_name : Str
  kernel : Str
  model : Str
  cpu_model : Str
  gpu_models : List Str
  ram_total : Nat
  ram_used : Nat
  screen_width : Nat
  screen_height : Nat
  shell : Str
  pkgs : Nat
  pkgman_name : Str
  uptime : Nat
  image_name : Option Str
deriving DecidableEq

/-- The Default derive of SystemInfo: empty strings, zeros, empty
sequence, no image. -/
def emptyInfo : SystemInfo :=
  ⟨[], [], [], [], [], [], [], 0, 0, 0, 0, [], 0, [], 0, none⟩

/-- The display configuration of src/config.rs (the boolean show flags;
populate consults only the gpu, resolution and pkgs flags). -/
structure Configuration where
  show_user : Bool
  show_os : Bool
  show_host : Bool
  show_kernel : Bool
  show_cpu : Bool
  show_gpu : Bool
  show_ram : Bool
  show_resolution : Bool
  show_shell : Bool
  show_pkgs : Bool
  show_uptime : Bool
  show_colors : Bool
  show_image : Bool
deriving DecidableEq

/-- The default configuration: everything shown except the image. -/
def defaultConfig : Configuration :=
  ⟨true, true, true, true, true, true, true, true, true, true, true, true, false⟩

/-- The compilation targets distinguished by the cfg attributes of
detect_distro; other stands for any target none of the blocks match. -/
inductive TargetOS where
  | linux
  | macos
  | freebsd
  | openbsd
  | windows
  | other
deriving DecidableEq

/-- Extract the ID field from the release file: the first line starting
with ID= yields the rest of that line with double quotes stripped from
both ends. -/
def idFromRelease (content : Str) : Option Str :=
  (lines content).findSome? fun l =>
    if (str "ID=").isPrefixOf l then some (trimMatchesChar chQuote (l.drop 3))
    else none

/-- The distribution-marker file tests of detect_distro, in source
order: Debian, then Arch, then Fedora, else the literal unknown. -/
def linuxMarkers (env : Env) : Str :=
  if env.pathExists (str "/etc/debian_version") then str "debian"
  else if env.pathExists (str "/etc/arch-release") then str "arch"
  else if env.pathExists (str "/etc/fedora-release") then str "fedora"
  else str "unknown"

/-- detect_distro of src/info.rs. On the Linux target it reads the
os-release file, returns the ID value of the first ID line if one
exists, and otherwise falls through to the marker files; on the other
named targets the conditionally compiled blocks return the platform
constant; any remaining target reaches the literal unknown. -/
def detect_distro (os : TargetOS) (env : Env) : Str :=
  match os with
  | .linux =>
    match env.readFile (str "/etc/os-release") with
    | some content =>
      match idFromRelease content with
      | some v => v
      | none => linuxMarkers env
    | none => linuxMarkers env
  | .macos => str "macos"
  | .freebsd => str "freebsd"
  | .openbsd => str "openbsd"
  | .windows => str "windows"
  | .other => str "unknown"

/-- The user and host values of get_user_host_fast on the Linux target:
the USER variable verbatim, and the first of the hostname pseudo-file,
the hostname file, or the trimmed output of the hostname utility. -/
def userHostValues (env : Env) (prior : Str × Str) : Str × Str :=
  let u := match env.getEnv (str "USER") with
    | some user => user
    | none => prior.1
  let h := match env.readFile (str "/proc/sys/kernel/hostname") with
    | some hn => trim hn
    | none =>
      match env.readFile (str "/etc/hostname") with
      | some hn => trim hn
      | none =>
        match env.cmdOut (str "hostname") [] with
        | some out => trim out
        | none => prior.2
  (u, h)

/-- get_user_host_fast of src/info.rs (Linux target). -/
def get_user_host_fast (env : Env) (info : SystemInfo) : SystemInfo :=
  let uh := userHostValues env (info.user, info.host)
  { info with user := uh.1, host := uh.2 }

/-- get_os_info of src/info.rs, for a Linux build. -/
def get_os_info (env : Env) (info : SystemInfo) : SystemInfo :=
  { info with os_name := detect_distro .linux env }

/-- The kernel value of get_kernel_fast on the Linux target: the
trimmed osrelease pseudo-file, else the trimmed output of uname -r,
else the prior value. -/
def kernelValue (env : Env) (prior : Str) : Str :=
  match env.readFile (str "/proc/sys/kernel/osrelease") with
  | some r => trim r
  | none =>
    match env.cmdOut (str "uname") [str "-r"] with
    | some out => trim out
    | none => prior

/-- get_kernel_fast of src/info.rs (Linux target). -/
def get_kernel_fast (env : Env) (info : SystemInfo) : SystemInfo :=
  { info with kernel := kernelValue env info.kernel }

/-- The ordered hardware-descriptor files of get_model. -/
def modelFiles : List Str :=
  [str "/sys/devices/virtual/dmi/id/product_version",
   str "/sys/devices/virtual/dmi/id/product_name",
   str "/sys/devices/virtual/dmi/id/board_name"]

/-- The placeholder sentinel get_model rejects. -/
def oemSentinel : Str := str "To Be Filled By O.E.M."

/-- The file loop of get_model: read each file in order; the first
trimmed content that is non-empty and differs from the sentinel wins;
unreadable, empty or sentinel files are skipped; if none is accepted
the prior value is kept. The source repeats the identical loop in a
second conditionally compiled block, which can only re-run the same
failed scan and is therefore not duplicated here. -/
def modelLoop (env : Env) : List Str → Str → Str
  | [], prior => prior
  | f :: fs, prior =>
    match env.readFile f with
    | some content =>
      let c := trim content
      if c ≠ [] ∧ c ≠ oemSentinel then c else modelLoop env fs prior
    | none => modelLoop env fs prior

/-- get_model of src/info.rs (Linux target). -/
def get_model (env : Env) (info : SystemInfo) : SystemInfo :=
  { info with model := modelLoop env modelFiles info.model }

/-- The line scan of get_cpu over the cpuinfo contents: every line
starting with the model-name field updates the brand to the trimmed
text after the first colon when a colon is present, and increments the
logical-processor count either way; the count is a u32. -/
def cpuScan (ls : List Str) : Str × Nat :=
  ls.foldl
    (fun p line =>
      if (str "model name").isPrefixOf line then
        (match (splitOnChar ':' line).get? 1 with
         | some nm => trim nm
         | none => p.1,
         (p.2 + 1) % 2 ^ 32)
      else p)
    ([], 0)

/-- The cpu value of get_cpu on the Linux target: from a readable
cpuinfo pseudo-file, the scanned brand if non-empty, else the
synthesized count-Cores string; with no readable cpuinfo the function
falls through to the literal Unknown CPU. -/
def cpuValue (env : Env) : Str :=
  match env.readFile (str "/proc/cpuinfo") with
  | some content =>
    let s := cpuScan (lines content)
    if s.1 ≠ [] then s.1 else natToChars s.2 ++ str " Cores"
  | none => str "Unknown CPU"

/-- get_cpu of src/info.rs (Linux target). -/
def get_cpu (env : Env) (info : SystemInfo) : SystemInfo :=
  { info with cpu_model := cpuValue env }

/-- The meminfo scan of get_memory: the second whitespace field of the
MemTotal and MemAvailable lines, parsed as u64 with zero on parse
failure. -/
def memScan (ls : List Str) : Nat × Nat :=
  ls.foldl
    (fun tv line =>
      if (str "MemTotal:").isPrefixOf line then
        match (splitWS line).get? 1 with
        | some v => ((parseU64 v).getD 0, tv.2)
        | none => tv
      else if (str "MemAvailable:").isPrefixOf line then
        match (splitWS line).get? 1 with
        | some v => (tv.1, (parseU64 v).getD 0)
        | none => tv
      else tv)
    (0, 0)

/-- The memory totals of get_memory on the Linux target, in mebibytes:
total over 1024 and wrapped difference over 1024; with no readable
meminfo the prior pair is kept. -/
def memValues (env : Env) (prior : Nat × Nat) : Nat × Nat :=
  match env.readFile (str "/proc/meminfo") with
  | some content =>
    let s := memScan (lines content)
    (s.1 / 1024, sub64 s.1 s.2 / 1024)
  | none => prior

/-- get_memory of src/info.rs (Linux target). -/
def get_memory (env : Env) (info : SystemInfo) : SystemInfo :=
  let m := memValues env (info.ram_total, info.ram_used)
  { info with ram_total := m.1, ram_used := m.2 }

/-- The shell value of get_shell: the part of the SHELL variable after
the last slash; with no SHELL variable the prior value is kept. -/
def shellValue (env : Env) (prior : Str) : Str :=
  match env.getEnv (str "SHELL") with
  | some sh => ((splitOnChar '/' sh).getLast?).getD prior
  | none => prior

/-- get_shell of src/info.rs. -/
def get_shell (env : Env) (info : SystemInfo) : SystemInfo :=
  { info with shell := shellValue env info.shell }

/-- The uptime value of get_uptime on the Linux target: the first
whitespace field of the uptime pseudo-file parsed as a float and
truncated to whole seconds; on any failure the prior value is kept. -/
def uptimeValue (env : Env) (prior : Nat) : Nat :=
  match env.readFile (str "/proc/uptime") with
  | some content =>
    match (splitWS content).get? 0 with
    | some s =>
      match parseFloatFloor s with
      | some u => u
      | none => prior
    | none => prior
  | none => prior

/-- get_uptime of src/info.rs (Linux target). -/
def get_uptime (env : Env) (info : SystemInfo) : SystemInfo :=
  { info with uptime := uptimeValue env info.uptime }

/-- One line of the lspci machine-readable output: device-class lines
are kept; with at least ten quote-separated pieces the trimmed vendor
and device fields are combined, and the combination is pushed when
non-empty; otherwise the raw line is pushed. -/
def lspciLine (gpus : List Str) (line : Str) : List Str :=
  if containsSub (str "VGA compatible controller") line
      || containsSub (str "3D controller") line
      || containsSub (str "Display controller") line then
    let parts := splitOnChar chQuote line
    if 10 ≤ parts.length then
      let vendor := trim ((parts.get? 5).getD [])
      let device := trim ((parts.get? 7).getD [])
      let combo := trim (vendor ++ ' ' :: device)
      if combo ≠ [] then gpus ++ [combo] else gpus ++ [line]
    else gpus ++ [line]
  else gpus

/-- The lspci pass of detect_gpus. -/
def lspciParse (out : Str) : List Str := (lines out).foldl lspciLine []

/-- The drm fallback of detect_gpus: every directory entry whose name
starts with card contributes the last DRIVER value of its uevent file,
deduplicated in discovery order. -/
def drmScan (env : Env) : List Str :=
  match env.readDir (str "/sys/class/drm") with
  | none => []
  | some entries =>
    entries.foldl
      (fun gpus e =>
        if (str "card").isPrefixOf e.name then
          match env.readFile (joinPath e.path (str "device/uevent")) with
          | some txt =>
            let driver := (lines txt).foldl
              (fun d line =>
                if (str "DRIVER=").isPrefixOf line then
                  some (trim (line.drop 7))
                else d)
              none
            match driver with
            | some d => if gpus.contains d then gpus else gpus ++ [d]
            | none => gpus
          | none => gpus
        else gpus)
      []

/-- detect_gpus of src/info.rs (Linux target): the lspci pass when the
utility is on PATH and spawns, else the drm directory fallback. -/
def detect_gpus (env : Env) : List Str :=
  if which env (str "lspci") then
    match env.cmdOut (str "lspci") [str "-mm", str "-nn"] with
    | some out => lspciParse out
    | none => drmScan env
  else drmScan env

/-- The framebuffer source of detect_resolution: the trimmed
virtual_size contents split on a comma, both leading fields parsed as
u32. -/
def fbParse (v : Str) : Option (Nat × Nat) :=
  let ps := splitOnChar ',' (trim v)
  match ps.get? 0, ps.get? 1 with
  | some w, some h =>
    match parseU32 w, parseU32 h with
    | some ww, some hh => some (ww, hh)
    | _, _ => none
  | _, _ => none

/-- One xrandr output line: after the first occurrence of the token
current, the next whitespace field parsed as u32 gives the width and
the field after the following one, trailing commas stripped, gives the
height. -/
def xrandrLine (line : Str) : Option (Nat × Nat) :=
  match findSub (str "current") line with
  | none => none
  | some idx =>
    let ws := splitWS (line.drop (idx + 7))
    match (ws.get? 0).bind parseU32,
        ((ws.get? 2).map (trimEndMatchesChar ',')).bind parseU32 with
    | some ww, some hh => some (ww, hh)
    | _, _ => none

/-- The xrandr source of detect_resolution: consulted only when the
DISPLAY variable is set and xrandr is on PATH; the first line that
yields both fields wins; otherwise the zero pair. -/
def xrandrPart (env : Env) : Nat × Nat :=
  if (env.getEnv (str "DISPLAY")).isSome && which env (str "xrandr") then
    match env.cmdOut (str "xrandr") [str "--current"] with
    | some out => ((lines out).findSome? xrandrLine).getD (0, 0)
    | none => (0, 0)
  else (0, 0)

/-- detect_resolution of src/info.rs (Linux target). -/
def detect_resolution (env : Env) : Nat × Nat :=
  match env.readFile (str "/sys/class/graphics/fb0/virtual_size") with
  | some v =>
    match fbParse v with
    | some r => r
    | none => xrandrPart env
  | none => xrandrPart env

/-- get_resolution of src/info.rs: two calls of detect_resolution, the
first for the width and the second for the height. -/
def get_resolution (env : Env) (info : SystemInfo) : SystemInfo :=
  { info with
    screen_width := (detect_resolution env).1,
    screen_height := (detect_resolution env).2 }

/-- The dpkg count of detect_packages_fast: when the status database
exists and is readable, the number of lines equal to the installed
status line, as a u32. -/
def dpkgCount (env : Env) : Nat :=
  if env.pathExists (str "/var/lib/dpkg/status") then
    match env.readFile (str "/var/lib/dpkg/status") with
    | some s =>
      ((lines s).countP fun l => l = str "Status: install ok installed") % 2 ^ 32
    | none => 0
  else 0

/-- The pacman count: when the local database directory exists and is
listable, the number of subdirectory entries holding a desc file, as a
u32. -/
def pacmanCount (env : Env) : Nat :=
  if env.pathExists (str "/var/lib/pacman/local") then
    match env.readDir (str "/var/lib/pacman/local") with
    | some entries =>
      (entries.countP fun e =>
        e.isDir && env.pathExists (joinPath e.path (str "desc"))) % 2 ^ 32
    | none => 0
  else 0

/-- The rpm count: when rpm is on PATH and spawns, the number of
non-blank output lines of the query, as a u32. -/
def rpmCount (env : Env) : Nat :=
  if which env (str "rpm") then
    match env.cmdOut (str "rpm") [str "-qa", str "--qf", str "%\x7bNAME\x7d" ++ [chNL]] with
    | some out => ((lines out).countP fun l => trim l ≠ []) % 2 ^ 32
    | none => 0
  else 0

/-- The flatpak count: when flatpak is on PATH and spawns, the number
of non-blank output lines of the application list, as a u32. -/
def flatpakCount (env : Env) : Nat :=
  if which env (str "flatpak") then
    match env.cmdOut (str "flatpak")
        [str "list", str "--app", str "--columns=application"] with
    | some out => ((lines out).countP fun l => trim l ≠ []) % 2 ^ 32
    | none => 0
  else 0

/-- The snap count: when snap is on PATH and spawns, the number of
non-blank output lines after the header row, as a u32. -/
def snapCount (env : Env) : Nat :=
  if which env (str "snap") then
    match env.cmdOut (str "snap") [str "list"] with
    | some out => (((lines out).drop 1).countP fun l => trim l ≠ []) % 2 ^ 32
    | none => 0
  else 0

/-- The package managers of the Linux block of detect_packages_fast,
with their counts, in probe order. -/
def pmCounts (env : Env) : List (Nat × Str) :=
  [(dpkgCount env, str "dpkg"),
   (pacmanCount env, str "pacman"),
   (rpmCount env, str "rpm"),
   (flatpakCount env, str "flatpak"),
   (snapCount env, str "snap")]

/-- The running fold of detect_packages_fast: every manager with a
positive count adds the count to the u32 total and pushes its labelled
fragment. -/
def pkgFold : List (Nat × Str) → Nat → List Str → Nat × List Str
  | [], total, labels => (total, labels)
  | (c, name) :: rest, total, labels =>
    if 0 < c then
      pkgFold rest ((total + c) % 2 ^ 32)
        (labels ++ [natToChars c ++ str " (" ++ name ++ str ")"])
    else pkgFold rest total labels

/-- detect_packages_fast of src/info.rs (Linux target): the fold over
the managers, then the zero guard, then the comma-space join of the
fragments. -/
def detect_packages_fast (env : Env) : Nat × Str :=
  let r := pkgFold (pmCounts env) 0 []
  if r.1 = 0 then (0, []) else (r.1, List.intercalate (str ", ") r.2)

/-- Which of the three parallel tasks panicked before its join. The
task bodies themselves are total functions of the environment; a panic
is the only way a join can report failure. -/
structure Panics where
  gpu : Bool
  res : Bool
  pkgs : Bool
deriving DecidableEq

/-- No task panicked. -/
def noPanics : Panics := ⟨false, false, false⟩

/-- The gpu join of populate: when the task was launched and its join
succeeds, its result overwrites the field; a failed join leaves the
field untouched. -/
def applyGpu : Bool → Bool → Env → SystemInfo → SystemInfo
  | true, false, env, i => { i with gpu_models := detect_gpus env }
  | true, true, _, i => i
  | false, _, _, i => i

/-- The resolution join of populate. -/
def applyResTask : Bool → Bool → Env → SystemInfo → SystemInfo
  | true, false, env, i =>
    { i with
      screen_width := (detect_resolution env).1,
      screen_height := (detect_resolution env).2 }
  | true, true, _, i => i
  | false, _, _, i => i

/-- The packages join of populate. -/
def applyPkgsTask : Bool → Bool → Env → SystemInfo → SystemInfo
  | true, false, env, i =>
    { i with
      pkgs := (detect_packages_fast env).1,
      pkgman_name := (detect_packages_fast env).2 }
  | true, true, _, i => i
  | false, _, _, i => i

/-- The synchronous first phase of populate, in source order: user and
host, the OS probe guarded by the emptiness of the identity, kernel,
resolution, model, cpu, memory, shell, uptime. -/
def cheapPass (env : Env) (info : SystemInfo) : SystemInfo :=
  let i1 := get_user_host_fast env info
  let i2 := if i1.os_name = [] then get_os_info env i1 else i1
  let i3 := get_kernel_fast env i2
  let i4 := get_resolution env i3
  let i5 := get_model env i4
  let i6 := get_cpu env i5
  let i7 := get_memory env i6
  let i8 := get_shell env i7
  get_uptime env i8

/-- populate of src/info.rs: the cheap pass, then the three parallel
tasks, launched only when the matching show flag is set, joined in gpu,
resolution, packages order, each successful join overwriting its
fields. -/
def populate (cfg : Configuration) (env : Env) (pan : Panics)
    (info : SystemInfo) : SystemInfo :=
  applyPkgsTask cfg.show_pkgs pan.pkgs env
    (applyResTask cfg.show_resolution pan.res env
      (applyGpu cfg.show_gpu pan.gpu env (cheapPass env info)))

/-- The three parallel tasks of populate. -/
inductive TaskId where
  | gpu
  | res
  | pkgs
deriving DecidableEq

/-- The registry-affecting events the thread running populate performs,
in program order: completing a cheap synchronous probe, launching a
task, joining a task, and applying a joined result to the registry. -/
inductive PEvent where
  | probeUserHost
  | probeOS
  | probeKernel
  | probeRes
  | probeModel
  | probeCpu
  | probeMem
  | probeShell
  | probeUptime
  | launch (t : TaskId)
  | joinT (t : TaskId)
  | applyT (t : TaskId)
deriving DecidableEq

/-- Whether an event is a cheap-pass probe completion. -/
def isProbe : PEvent → Bool
  | .probeUserHost | .probeOS | .probeKernel | .probeRes | .probeModel
  | .probeCpu | .probeMem | .probeShell | .probeUptime => true
  | _ => false

/-- Whether an event is a task launch. -/
def isLaunch : PEvent → Bool
  | .launch _ => true
  | _ => false

/-- Whether an event is a task join. -/
def isJoin : PEvent → Bool
  | .joinT _ => true
  | _ => false

/-- Whether an event is a result application. -/
def isApply : PEvent → Bool
  | .applyT _ => true
  | _ => false

/-- The event sequence of populate over the six booleans it consults:
the three show flags and the three join outcomes, plus whether the OS
identity was empty on entry. -/
def populateTraceCore (sg sr sp pg pr pp osEmpty : Bool) : List PEvent :=
  [PEvent.probeUserHost]
    ++ (if osEmpty then [PEvent.probeOS] else [])
    ++ [PEvent.probeKernel, PEvent.probeRes, PEvent.probeModel,
        PEvent.probeCpu, PEvent.probeMem, PEvent.probeShell,
        PEvent.probeUptime]
    ++ (if sg then [PEvent.launch .gpu] else [])
    ++ (if sr then [PEvent.launch .res] else [])
    ++ (if sp then [PEvent.launch .pkgs] else [])
    ++ (if sg then
          PEvent.joinT .gpu :: (if pg then [] else [PEvent.applyT .gpu])
        else [])
    ++ (if sr then
          PEvent.joinT .res :: (if pr then [] else [PEvent.applyT .res])
        else [])
    ++ (if sp then
          PEvent.joinT .pkgs :: (if pp then [] else [PEvent.applyT .pkgs])
        else [])

/-- The sequence of registry-affecting events populate performs, read
off the statement order of the source: the cheap probes with the OS
probe present exactly when the identity is empty on entry, then the
conditional launches, then per task its join immediately followed by
its application when the join succeeded. -/
def populateTrace (cfg : Configuration) (pan : Panics) (osEmpty : Bool) :
    List PEvent :=
  populateTraceCore cfg.show_gpu cfg.show_resolution cfg.show_pkgs
    pan.gpu pan.res pan.pkgs osEmpty

/-- One key=value line of the cache file. -/
def kv (k v : Str) : Str := k ++ '=' :: v

/-- The lines write_cache emits, in source order: one line per scalar
field, then one gpu line per GPU entry. -/
def cacheLines (info : SystemInfo) : List Str :=
  [kv (str "user") info.user,
   kv (str "host") info.host,
   kv (str "version_name") info.os_name,
   kv (str "host_model") info.model,
   kv (str "kernel") info.kernel,
   kv (str "cpu") info.cpu_model,
   kv (str "screen_width") (natToChars info.screen_width),
   kv (str "screen_height") (natToChars info.screen_height),
   kv (str "shell") info.shell,
   kv (str "pkgs") (natToChars info.pkgs),
   kv (str "pkgman_name") info.pkgman_name]
    ++ info.gpu_models.map fun g => kv (str "gpu") g

/-- Concatenate lines the way successive writeln calls do, appending a
newline after each. -/
def writelnAll (ls : List Str) : Str := (ls.map fun l => l ++ [chNL]).flatten

/-- write_cache of src/cache.rs: the file contents produced for a
registry (the surrounding path handling, which silently gives up when
the HOME variable is unset or the file cannot be created, is outside
the codec itself). -/
def write_cache (info : SystemInfo) : Str := writelnAll (cacheLines info)

/-- One parsed line of read_cache: split at the first equals sign and
dispatch on the key, unknown keys and separator-free lines ignored; gpu
lines push onto the GPU list, the numeric fields parse as u32 with zero
on failure. -/
def cacheStep (info : SystemInfo) (line : Str) : SystemInfo :=
  match splitOnce '=' line with
  | none => info
  | some (k, v) =>
    if k = str "user" then { info with user := v }
    else if k = str "host" then { info with host := v }
    else if k = str "version_name" then { info with os_name := v }
    else if k = str "host_model" then { info with model := v }
    else if k = str "kernel" then { info with kernel := v }
    else if k = str "cpu" then { info with cpu_model := v }
    else if k = str "gpu" then { info with gpu_models := info.gpu_models ++ [v] }
    else if k = str "screen_width" then
      { info with screen_width := (parseU32 v).getD 0 }
    else if k = str "screen_height" then
      { info with screen_height := (parseU32 v).getD 0 }
    else if k = str "shell" then { info with shell := v }
    else if k = str "pkgs" then { info with pkgs := (parseU32 v).getD 0 }
    else if k = str "pkgman_name" then { info with pkgman_name := v }
    else info

/-- read_cache of src/cache.rs: fold the parsed lines over the empty
registry, then overwrite the memory pair and the uptime with values
re-derived live at read time, supplied here as the liveMem and liveUp
arguments since they come from fresh probes of the host rather than
from the file. -/
def read_cache (content : Str) (liveMem : Nat × Nat) (liveUp : Nat) :
    SystemInfo :=
  let folded := (lines content).foldl cacheStep emptyInfo
  { folded with ram_total := liveMem.1, ram_used := liveMem.2, uptime := liveUp }

/-! Specification-side definitions, written from the words of the
specification for the refinement claims, to be compared with the
definitions translated from the source. -/

/-- Spec side, OS identity source one: the ID field of the release
file, quotes stripped; unavailable off the Linux target, where the
block is not compiled. -/
def specReleaseSource (os : TargetOS) (env : Env) : Option Str :=
  if os = .linux then (env.readFile (str "/etc/os-release")).bind idFromRelease
  else none

/-- Spec side, OS identity source two: the marker files, Debian before
Arch before Fedora; unavailable off the Linux target. -/
def specMarkerSource (os : TargetOS) (env : Env) : Option Str :=
  if os = .linux then
    if env.pathExists (str "/etc/debian_version") then some (str "debian")
    else if env.pathExists (str "/etc/arch-release") then some (str "arch")
    else if env.pathExists (str "/etc/fedora-release") then some (str "fedora")
    else none
  else none

/-- Spec side, OS identity source three: the compiled-in platform
constant of the non-Linux targets. -/
def specConstSource (os : TargetOS) : Option Str :=
  match os with
  | .macos => some (str "macos")
  | .freebsd => some (str "freebsd")
  | .openbsd => some (str "openbsd")
  | .windows => some (str "windows")
  | _ => none

/-- Spec side: the OS identity probe as the claim orders it, the first
available source winning and the literal unknown closing the chain. -/
def specDistro (os : TargetOS) (env : Env) : Str :=
  (((specReleaseSource os env).orElse fun _ => specMarkerSource os env).orElse
      fun _ => specConstSource os).getD (str "unknown")

/-- Spec side, hardware model: the acceptance rule for one descriptor
file, rejecting unreadable files and trimmed contents that are empty or
equal the placeholder sentinel. -/
def acceptModel (env : Env) (f : Str) : Option Str :=
  match env.readFile f with
  | some content =>
    let c := trim content
    if c ≠ [] ∧ c ≠ oemSentinel then some c else none
  | none => none

/-- Spec side, packages: the label fragment of one manager. -/
def pkgFragment (c : Nat) (name : Str) : Str :=
  natToChars c ++ str " (" ++ name ++ str ")"

/-- Spec side, packages: the fragments of the managers with non-zero
counts, in probe order. -/
def specFragments (cs : List (Nat × Str)) : List Str :=
  (cs.filter fun c => 0 < c.1).map fun c => pkgFragment c.1 c.2

/-- Spec side, packages: the sum of all per-manager counts. -/
def specTotal (cs : List (Nat × Str)) : Nat := (cs.map Prod.fst).sum

/-! Auxiliary lemmas about the string utilities. -/

theorem splitOnChar_ne_nil (c : Char) (s : Str) : splitOnChar c s ≠ [] := by
  induction s with
  | nil => simp [splitOnChar]
  | cons x xs ih =>
    simp only [splitOnChar]
    split
    · simp
    · cases h : splitOnChar c xs with
      | nil => simp
      | cons y ys => simp [h]

theorem splitOnChar_append (c : Char) (b : Str) :
    ∀ a : Str, c ∉ a → splitOnChar c (a ++ c :: b) = a :: splitOnChar c b
  | [], _ => by simp [splitOnChar]
  | x :: xs, h => by
    have hx : ¬x = c := by
      rintro rfl
      exact h (List.mem_cons_self _ _)
    have hxs : c ∉ xs := fun hm => h (List.mem_cons_of_mem _ hm)
    simp only [List.cons_append, splitOnChar, if_neg hx, List.append_eq,
      splitOnChar_append c b xs hxs]

theorem stripCR_of_not_mem {l : Str} (h : chCR ∉ l) : stripCR l = l := by
  unfold stripCR
  rw [if_neg]
  intro hl
  exact h (List.mem_of_mem_getLast? hl)

theorem lines_writelnAll :
    ∀ ls : List Str, (∀ l ∈ ls, chNL ∉ l ∧ chCR ∉ l) →
      lines (writelnAll ls) = ls
  | [], _ => by simp [writelnAll, lines, splitOnChar, linesAux]
  | l :: rest, h => by
    have h1 := h l (List.mem_cons_self _ _)
    have h2 : ∀ x ∈ rest, chNL ∉ x ∧ chCR ∉ x := fun x hx =>
      h x (List.mem_cons_of_mem _ hx)
    have hw : writelnAll (l :: rest) = l ++ chNL :: writelnAll rest := by
      simp [writelnAll]
    rw [lines, hw, splitOnChar_append chNL (writelnAll rest) l h1.1]
    obtain ⟨q, ps, hq⟩ :=
      List.exists_cons_of_ne_nil (splitOnChar_ne_nil chNL (writelnAll rest))
    rw [hq]
    simp only [linesAux, stripCR_of_not_mem h1.2, ← hq]
    have hr := lines_writelnAll rest h2
    rw [lines] at hr
    rw [hr]

theorem splitOnce_sep (c : Char) (v : Str) :
    ∀ k : Str, c ∉ k → splitOnce c (k ++ c :: v) = some (k, v)
  | [], _ => by simp [splitOnce]
  | x :: xs, h => by
    have hx : ¬x = c := by
      rintro rfl
      exact h (List.mem_cons_self _ _)
    have hxs : c ∉ xs := fun hm => h (List.mem_cons_of_mem _ hm)
    simp only [List.cons_append, splitOnce, if_neg hx, List.append_eq,
      splitOnce_sep c v xs hxs]

theorem digitChar_props :
    ∀ d : Nat, d < 10 →
      (Nat.digitChar d).isDigit = true ∧ (Nat.digitChar d).toNat - 48 = d := by
  decide

theorem digitsVal_append (xs : Str) (c : Char) :
    digitsVal (xs ++ [c]) = digitsVal xs * 10 + (c.toNat - 48) := by
  simp [digitsVal, List.foldl_append]

theorem natToCharsAux_spec :
    ∀ fuel n : Nat, n < fuel →
      natToCharsAux fuel n ≠ [] ∧
        (natToCharsAux fuel n).all Char.isDigit = true ∧
        digitsVal (natToCharsAux fuel n) = n
  | 0, _, h => absurd h (by omega)
  | fuel + 1, n, h => by
    by_cases h10 : n < 10
    · simp only [natToCharsAux, if_pos h10]
      refine ⟨by simp, ?_, ?_⟩
      · simp [(digitChar_props n h10).1]
      · simp [digitsVal, (digitChar_props n h10).2]
    · have hdiv : n / 10 < fuel := by
        have := Nat.div_lt_self (show 0 < n by omega) (show 1 < 10 by omega)
        omega
      obtain ⟨hne, hall, hval⟩ := natToCharsAux_spec fuel (n / 10) hdiv
      have hmod : n % 10 < 10 := Nat.mod_lt _ (by omega)
      simp only [natToCharsAux, if_neg h10]
      refine ⟨by simp, ?_, ?_⟩
      · simp only [List.all_append, hall, Bool.true_and, List.all_cons,
          (digitChar_props _ hmod).1, List.all_nil, Bool.and_true]
      · rw [digitsVal_append, hval, (digitChar_props _ hmod).2]
        omega

theorem natToChars_spec (n : Nat) :
    natToChars n ≠ [] ∧ (natToChars n).all Char.isDigit = true ∧
      digitsVal (natToChars n) = n :=
  natToCharsAux_spec (n + 1) n (by omega)

theorem parseNatStr_natToChars (n : Nat) :
    parseNatStr (natToChars n) = some n := by
  obtain ⟨hne, hall, hval⟩ := natToChars_spec n
  unfold parseNatStr
  obtain ⟨c, cs, hc⟩ := List.exists_cons_of_ne_nil hne
  rw [hc] at hall hval ⊢
  have hcd : c.isDigit = true := by
    simp only [List.all_cons, Bool.and_eq_true] at hall
    exact hall.1
  have hcp : c ≠ '+' := by
    rintro rfl
    simp [Char.isDigit] at hcd
  split
  · rename_i r heq
    exact absurd (List.cons.inj heq).1 hcp
  · have hd : isDigits (c :: cs) = true := by
      simp only [isDigits, List.isEmpty_cons, Bool.not_false, Bool.true_and]
      exact hall
    rw [if_pos hd, hval]

theorem parseU32_natToChars {n : Nat} (h : n < 2 ^ 32) :
    parseU32 (natToChars n) = some n := by
  have h2 : n < 4294967296 := by omega
  simp [parseU32, parseBounded, parseNatStr_natToChars, h2]

theorem countP_replicate (p : Str → Bool) (a : Str) :
    ∀ n : Nat, (List.replicate n a).countP p = if p a then n else 0
  | 0 => by simp
  | n + 1 => by
    simp only [List.replicate_succ, List.countP_cons, countP_replicate p a n]
    split <;> rename_i h <;> simp [h]

/-! Frame lemmas: the fields each phase of populate leaves untouched,
and the values of the fields it writes. -/

theorem cheapPass_os_name (env : Env) (info : SystemInfo) :
    (cheapPass env info).os_name =
      if info.os_name = [] then detect_distro .linux env else info.os_name := by
  simp only [cheapPass, get_user_host_fast, get_os_info, get_kernel_fast,
    get_resolution, get_model, get_cpu, get_memory, get_shell, get_uptime]
  split <;> rfl

theorem cheapPass_gpu_models (env : Env) (info : SystemInfo) :
    (cheapPass env info).gpu_models = info.gpu_models := by
  simp only [cheapPass, get_user_host_fast, get_os_info, get_kernel_fast,
    get_resolution, get_model, get_cpu, get_memory, get_shell, get_uptime]
  split <;> rfl

theorem cheapPass_screen (env : Env) (info : SystemInfo) :
    (cheapPass env info).screen_width = (detect_resolution env).1 ∧
      (cheapPass env info).screen_height = (detect_resolution env).2 := by
  constructor <;>
    simp only [cheapPass, get_user_host_fast, get_os_info, get_kernel_fast,
      get_resolution, get_model, get_cpu, get_memory, get_shell, get_uptime]

theorem applyGpu_frame (e p : Bool) (env : Env) (i : SystemInfo) :
    (applyGpu e p env i).os_name = i.os_name ∧
      (applyGpu e p env i).screen_width = i.screen_width ∧
      (applyGpu e p env i).screen_height = i.screen_height ∧
      (applyGpu e p env i).pkgs = i.pkgs ∧
      (applyGpu e p env i).pkgman_name = i.pkgman_name := by
  cases e <;> cases p <;> exact ⟨rfl, rfl, rfl, rfl, rfl⟩

theorem applyResTask_frame (e p : Bool) (env : Env) (i : SystemInfo) :
    (applyResTask e p env i).os_name = i.os_name ∧
      (applyResTask e p env i).gpu_models = i.gpu_models ∧
      (applyResTask e p env i).pkgs = i.pkgs ∧
      (applyResTask e p env i).pkgman_name = i.pkgman_name := by
  cases e <;> cases p <;> exact ⟨rfl, rfl, rfl, rfl⟩

theorem applyPkgsTask_frame (e p : Bool) (env : Env) (i : SystemInfo) :
    (applyPkgsTask e p env i).os_name = i.os_name ∧
      (applyPkgsTask e p env i).gpu_models = i.gpu_models ∧
      (applyPkgsTask e p env i).screen_width = i.screen_width ∧
      (applyPkgsTask e p env i).screen_height = i.screen_height := by
  cases e <;> cases p <;> exact ⟨rfl, rfl, rfl, rfl⟩

theorem applyResTask_screen (e p : Bool) (env : Env) (i : SystemInfo)
    (hw : i.screen_width = (detect_resolution env).1)
    (hh : i.screen_height = (detect_resolution env).2) :
    (applyResTask e p env i).screen_width = (detect_resolution env).1 ∧
      (applyResTask e p env i).screen_height = (detect_resolution env).2 := by
  cases e <;> cases p <;> refine ⟨?_, ?_⟩ <;> first | rfl | assumption

theorem populate_screen (cfg : Configuration) (env : Env) (pan : Panics)
    (info : SystemInfo) :
    (populate cfg env pan info).screen_width = (detect_resolution env).1 ∧
      (populate cfg env pan info).screen_height = (detect_resolution env).2 := by
  unfold populate
  obtain ⟨hc1, hc2⟩ := cheapPass_screen env info
  obtain ⟨-, hg1, hg2, -, -⟩ :=
    applyGpu_frame cfg.show_gpu pan.gpu env (cheapPass env info)
  obtain ⟨hr1, hr2⟩ :=
    applyResTask_screen cfg.show_resolution pan.res env _
      (hg1.trans hc1) (hg2.trans hc2)
  obtain ⟨-, -, hp1, hp2⟩ :=
    applyPkgsTask_frame cfg.show_pkgs pan.pkgs env
      (applyResTask cfg.show_resolution pan.res env
        (applyGpu cfg.show_gpu pan.gpu env (cheapPass env info)))
  exact ⟨hp1.trans hr1, hp2.trans hr2⟩

theorem populate_os_name (cfg : Configuration) (env : Env) (pan : Panics)
    (info : SystemInfo) :
    (populate cfg env pan info).os_name =
      if info.os_name = [] then detect_distro .linux env else info.os_name := by
  unfold populate
  rw [(applyPkgsTask_frame _ _ _ _).1, (applyResTask_frame _ _ _ _).1,
    (applyGpu_frame _ _ _ _).1, cheapPass_os_name]

/-- The model loop returns the first accepted descriptor content and
keeps the prior value when every file is skipped. -/
theorem modelLoop_eq_findSome (env : Env) :
    ∀ (fs : List Str) (prior : Str),
      modelLoop env fs prior = (fs.findSome? (acceptModel env)).getD prior
  | [], _ => by simp [modelLoop]
  | f :: fs, prior => by
    simp only [modelLoop, List.findSome?_cons]
    cases h : env.readFile f with
    | none => simp [acceptModel, h, modelLoop_eq_findSome env fs prior]
    | some content =>
      by_cases hc : trim content ≠ [] ∧ trim content ≠ oemSentinel
      · simp [acceptModel, h, hc]
      · simp [acceptModel, h, hc, modelLoop_eq_findSome env fs prior]

/-- The package fold adds exactly the counts and pushes exactly the
non-zero fragments, provided the running total never wraps. -/
theorem pkgFold_spec :
    ∀ (cs : List (Nat × Str)) (total : Nat) (labels : List Str),
      total + specTotal cs < 2 ^ 32 →
      pkgFold cs total labels = (total + specTotal cs, labels ++ specFragments cs)
  | [], total, labels, _ => by simp [pkgFold, specTotal, specFragments]
  | (c, name) :: rest, total, labels, h => by
    have hrest : specTotal ((c, name) :: rest) = c + specTotal rest := by
      simp [specTotal]
    by_cases hc : 0 < c
    · have hlt : total + c + specTotal rest < 2 ^ 32 := by
        rw [hrest] at h
        omega
      have hmod : (total + c) % 2 ^ 32 = total + c :=
        Nat.mod_eq_of_lt (by omega)
      simp only [pkgFold, if_pos hc, hmod, pkgFold_spec rest (total + c) _ hlt]
      rw [Prod.mk.injEq]
      refine ⟨by rw [hrest]; omega, ?_⟩
      simp [specFragments, List.filter_cons, hc, pkgFragment, List.append_assoc]
    · have hc0 : c = 0 := by omega
      subst hc0
      have hlt : total + specTotal rest < 2 ^ 32 := by
        rw [hrest] at h
        omega
      simp only [pkgFold, if_neg hc, pkgFold_spec rest total labels hlt]
      rw [Prod.mk.injEq]
      refine ⟨by rw [hrest]; omega, ?_⟩
      simp [specFragments, List.filter_cons]

/-! The effect of one cache line on the registry being read back, one
lemma per key. -/

theorem cacheStep_user (I : SystemInfo) (v : Str) :
    cacheStep I (kv (str "user") v) = { I with user := v } := by
  unfold cacheStep kv
  rw [splitOnce_sep '=' v (str "user") (by decide)]
  simp +decide

theorem cacheStep_host (I : SystemInfo) (v : Str) :
    cacheStep I (kv (str "host") v) = { I with host := v } := by
  unfold cacheStep kv
  rw [splitOnce_sep '=' v (str "host") (by decide)]
  simp +decide

theorem cacheStep_version (I : SystemInfo) (v : Str) :
    cacheStep I (kv (str "version_name") v) = { I with os_name := v } := by
  unfold cacheStep kv
  rw [splitOnce_sep '=' v (str "version_name") (by decide)]
  simp +decide

theorem cacheStep_model (I : SystemInfo) (v : Str) :
    cacheStep I (kv (str "host_model") v) = { I with model := v } := by
  unfold cacheStep kv
  rw [splitOnce_sep '=' v (str "host_model") (by decide)]
  simp +decide

theorem cacheStep_kernel (I : SystemInfo) (v : Str) :
    cacheStep I (kv (str "kernel") v) = { I with kernel := v } := by
  unfold cacheStep kv
  rw [splitOnce_sep '=' v (str "kernel") (by decide)]
  simp +decide

theorem cacheStep_cpu (I : SystemInfo) (v : Str) :
    cacheStep I (kv (str "cpu") v) = { I with cpu_model := v } := by
  unfold cacheStep kv
  rw [splitOnce_sep '=' v (str "cpu") (by decide)]
  simp +decide

theorem cacheStep_gpu (I : SystemInfo) (v : Str) :
    cacheStep I (kv (str "gpu") v) =
      { I with gpu_models := I.gpu_models ++ [v] } := by
  unfold cacheStep kv
  rw [splitOnce_sep '=' v (str "gpu") (by decide)]
  simp +decide

theorem cacheStep_width (I : SystemInfo) (v : Str) :
    cacheStep I (kv (str "screen_width") v) =
      { I with screen_width := (parseU32 v).getD 0 } := by
  unfold cacheStep kv
  rw [splitOnce_sep '=' v (str "screen_width") (by decide)]
  simp +decide

theorem cacheStep_height (I : SystemInfo) (v : Str) :
    cacheStep I (kv (str "screen_height") v) =
      { I with screen_height := (parseU32 v).getD 0 } := by
  unfold cacheStep kv
  rw [splitOnce_sep '=' v (str "screen_height") (by decide)]
  simp +decide

theorem cacheStep_shell (I : SystemInfo) (v : Str) :
    cacheStep I (kv (str "shell") v) = { I with shell := v } := by
  unfold cacheStep kv
  rw [splitOnce_sep '=' v (str "shell") (by decide)]
  simp +decide

theorem cacheStep_pkgs (I : SystemInfo) (v : Str) :
    cacheStep I (kv (str "pkgs") v) =
      { I with pkgs := (parseU32 v).getD 0 } := by
  unfold cacheStep kv
  rw [splitOnce_sep '=' v (str "pkgs") (by decide)]
  simp +decide

theorem cacheStep_pkgman (I : SystemInfo) (v : Str) :
    cacheStep I (kv (str "pkgman_name") v) =
      { I with pkgman_name := v } := by
  unfold cacheStep kv
  rw [splitOnce_sep '=' v (str "pkgman_name") (by decide)]
  simp +decide

/-- Folding the gpu lines appends the GPU entries in order. -/
theorem foldl_cacheStep_gpu :
    ∀ (gs : List Str) (I : SystemInfo),
      List.foldl cacheStep I (gs.map fun g => kv (str "gpu") g) =
        { I with gpu_models := I.gpu_models ++ gs }
  | [], I => by simp
  | g :: gs, I => by
    simp only [List.map_cons, List.foldl_cons, cacheStep_gpu,
      foldl_cacheStep_gpu gs]
    simp

/-- A value that survives the line-based cache format: it contains no
newline and no carriage return. -/
def lineSafe (v : Str) : Prop := chNL ∉ v ∧ chCR ∉ v

instance (v : Str) : Decidable (lineSafe v) := by
  unfold lineSafe
  infer_instance

theorem lineSafe_kv {k v : Str} (hk : chNL ∉ k ∧ chCR ∉ k)
    (hv : lineSafe v) : chNL ∉ kv k v ∧ chCR ∉ kv k v := by
  unfold kv
  constructor <;> intro hm <;>
    rcases List.mem_append.1 hm with h1 | h2
  · exact hk.1 h1
  · rcases List.mem_cons.1 h2 with he | h3
    · exact absurd he (by decide)
    · exact hv.1 h3
  · exact hk.2 h1
  · rcases List.mem_cons.1 h2 with he | h3
    · exact absurd he (by decide)
    · exact hv.2 h3

theorem lineSafe_natToChars (n : Nat) : lineSafe (natToChars n) := by
  obtain ⟨-, hall, -⟩ := natToChars_spec n
  constructor <;> intro hm <;>
    have hd := List.all_eq_true.1 hall _ hm
  · exact absurd hd (by decide)
  · exact absurd hd (by decide)

theorem cacheLines_safe (info : SystemInfo)
    (hu : lineSafe info.user) (hh : lineSafe info.host)
    (ho : lineSafe info.os_name) (hm : lineSafe info.model)
    (hk : lineSafe info.kernel) (hc : lineSafe info.cpu_model)
    (hs : lineSafe info.shell) (hp : lineSafe info.pkgman_name)
    (hg : ∀ g ∈ info.gpu_models, lineSafe g) :
    ∀ l ∈ cacheLines info, chNL ∉ l ∧ chCR ∉ l := by
  intro l hl
  simp only [cacheLines, List.mem_append, List.mem_cons, List.mem_map,
    List.not_mem_nil, or_false] at hl
  rcases hl with (rfl | rfl | rfl | rfl | rfl | rfl | rfl | rfl | rfl | rfl |
      rfl) | ⟨gg, hgg, rfl⟩
  · exact lineSafe_kv (by decide) hu
  · exact lineSafe_kv (by decide) hh
  · exact lineSafe_kv (by decide) ho
  · exact lineSafe_kv (by decide) hm
  · exact lineSafe_kv (by decide) hk
  · exact lineSafe_kv (by decide) hc
  · exact lineSafe_kv (by decide) (lineSafe_natToChars _)
  · exact lineSafe_kv (by decide) (lineSafe_natToChars _)
  · exact lineSafe_kv (by decide) hs
  · exact lineSafe_kv (by decide) (lineSafe_natToChars _)
  · exact lineSafe_kv (by decide) hp
  · exact lineSafe_kv (by decide) (hg gg hgg)

/-- C2. Writing a populated registry to the cache and reading it back
reproduces every cached field exactly: user, host, os_name, model,
kernel, cpu_model, the GPU list in order, screen_width, screen_height,
shell, pkgs and pkgman_name; ram_total, ram_used and uptime are not
read from the file but come from the live re-derivation arguments, and
the image name is reset. The string fields are assumed line-safe, which
every probed value is, and the numeric fields fit in a u32 as they do
in the source record type. -/
theorem claim_C2_cache_roundtrip (info : SystemInfo) (lm : Nat × Nat)
    (lu : Nat)
    (hu : lineSafe info.user) (hh : lineSafe info.host)
    (ho : lineSafe info.os_name) (hm : lineSafe info.model)
    (hk : lineSafe info.kernel) (hc : lineSafe info.cpu_model)
    (hs : lineSafe info.shell) (hp : lineSafe info.pkgman_name)
    (hg : ∀ g ∈ info.gpu_models, lineSafe g)
    (hw : info.screen_width < 2 ^ 32) (hht : info.screen_height < 2 ^ 32)
    (hpk : info.pkgs < 2 ^ 32) :
    read_cache (write_cache info) lm lu =
      { info with
        ram_total := lm.1, ram_used := lm.2, uptime := lu,
        image_name := none } := by
  have hsafe := cacheLines_safe info hu hh ho hm hk hc hs hp hg
  have hlines : lines (write_cache info) = cacheLines info :=
    lines_writelnAll (cacheLines info) hsafe
  unfold read_cache
  rw [hlines]
  obtain ⟨u, ho2, os, k, m, c, g, rt, ru, w, sh2, shl, pk, pm, up, im⟩ := info
  simp only [cacheLines, List.foldl_append, List.foldl_cons, List.foldl_nil,
    cacheStep_user, cacheStep_host, cacheStep_version, cacheStep_model,
    cacheStep_kernel, cacheStep_cpu, cacheStep_width, cacheStep_height,
    cacheStep_shell, cacheStep_pkgs, cacheStep_pkgman, foldl_cacheStep_gpu]
  simp only [parseU32_natToChars hw, parseU32_natToChars hht,
    parseU32_natToChars hpk, Option.getD_some]
  rfl

/-- A concrete populated registry for the cache round-trip witness. -/
def cacheDemoInfo : SystemInfo :=
  { emptyInfo with
    user := str "bob", host := str "hx", os_name := str "arch",
    model := str "X1 Carbon", kernel := str "6.1.0", cpu_model := str "cpu9",
    gpu_models := [str "gpuA", str "gpuB"], screen_width := 1920,
    screen_height := 1080, shell := str "zsh", pkgs := 42,
    pkgman_name := str "42 (pacman)", ram_total := 7, ram_used := 3,
    uptime := 99, image_name := some (str "img") }

/-- C2 witness: the round-trip at a concrete populated registry. -/
theorem claim_C2_witness :
    read_cache (write_cache cacheDemoInfo) (11, 5) 77 =
      { cacheDemoInfo with
        ram_total := 11, ram_used := 5, uptime := 77, image_name := none } :=
  claim_C2_cache_roundtrip cacheDemoInfo (11, 5) 77 (by decide) (by decide)
    (by decide) (by decide) (by decide) (by decide) (by decide) (by decide)
    (by decide) (by decide) (by decide) (by decide)

/-- C4. The OS-identity probe tries its sources in the order the claim
gives and returns the first that succeeds: the ID field of the release
file with quotes stripped, then the Debian, Arch and Fedora marker
files in that order, then the compiled-in platform constant, then the
literal unknown. -/
theorem claim_C4_distro_order (os : TargetOS) (env : Env) :
    detect_distro os env = specDistro os env := by
  cases os with
  | linux =>
    simp only [detect_distro, specDistro, specReleaseSource, specMarkerSource,
      specConstSource, if_pos rfl]
    cases h : env.readFile (str "/etc/os-release") with
    | none =>
      simp only [h, Option.bind_none, Option.orElse, linuxMarkers]
      split_ifs <;> rfl
    | some content =>
      cases hid : idFromRelease content with
      | none =>
        have hb : (some content).bind idFromRelease = none := by simp [hid]
        simp only [h, hb, hid, Option.orElse, linuxMarkers]
        split_ifs <;> rfl
      | some v =>
        have hb : (some content).bind idFromRelease = some v := by simp [hid]
        simp [h, hb, hid, Option.orElse]
  | macos => rfl
  | freebsd => rfl
  | openbsd => rfl
  | windows => rfl
  | other => rfl

/-- C7. The hardware-model probe walks its ordered descriptor files and
takes the first content that is non-empty after trimming and differs
from the sentinel To Be Filled By O.E.M.; files that are unreadable,
empty or equal to the sentinel are skipped in favour of the next one,
and the prior field value is kept when every file is rejected. -/
theorem claim_C7_model_first_accepted (env : Env) (info : SystemInfo) :
    get_model env info =
      { info with
        model := (modelFiles.findSome? (acceptModel env)).getD info.model } := by
  rw [get_model, modelLoop_eq_findSome]

/-- C5. When the CPU-info pseudo-file is readable and its scan finds no
brand string but counts three logical-processor entries, the CPU probe
sets the model to the synthesized string 3 Cores. -/
theorem claim_C5_cpu_cores_fallback (env : Env) (info : SystemInfo)
    (content : Str)
    (hread : env.readFile (str "/proc/cpuinfo") = some content)
    (hbrand : (cpuScan (lines content)).1 = [])
    (hcount : (cpuScan (lines content)).2 = 3) :
    (get_cpu env info).cpu_model = str "3 Cores" := by
  simp only [get_cpu, cpuValue, hread]
  simp only [hbrand, hcount, ne_eq, not_true_eq_false, if_false,
    reduceIte]
  decide

/-- A concrete environment whose cpuinfo file holds three model-name
lines with no brand text. -/
def cpuCoresEnv : Env :=
  ⟨fun p =>
      if p = str "/proc/cpuinfo" then
        some (writelnAll (List.replicate 3 (str "model name")))
      else none,
   fun _ => false, fun _ => false, fun _ => none, fun _ _ => none,
   fun _ => none⟩

/-- C5 witness: the fallback at the concrete three-processor cpuinfo. -/
theorem claim_C5_witness :
    (get_cpu cpuCoresEnv emptyInfo).cpu_model = str "3 Cores" :=
  claim_C5_cpu_cores_fallback cpuCoresEnv emptyInfo
    (writelnAll (List.replicate 3 (str "model name"))) (by rfl) (by decide)
    (by decide)

/-- All per-manager fragments vanish when the total count is zero. -/
theorem specFragments_of_total_zero {cs : List (Nat × Str)}
    (h : specTotal cs = 0) : specFragments cs = [] := by
  unfold specFragments
  have hz : ∀ c ∈ cs, ¬(0 < c.1) := by
    intro c hc
    have := (List.sum_eq_zero_iff.1 h) c.1 (List.mem_map_of_mem Prod.fst hc)
    omega
  rw [List.filter_eq_nil_iff.2 (by intro c hc; simpa using hz c hc),
    List.map_nil]

/-- C6. The package-count probe totals the per-manager counts of every
detected manager and labels the result by joining the non-zero
fragments count space parenthesised name with comma space, in probe
order dpkg, pacman, rpm, flatpak, snap; the hypothesis keeps the u32
total from wrapping. -/
theorem claim_C6_package_aggregation (env : Env)
    (hsum : specTotal (pmCounts env) < 2 ^ 32) :
    detect_packages_fast env =
      (specTotal (pmCounts env),
        List.intercalate (str ", ") (specFragments (pmCounts env))) := by
  unfold detect_packages_fast
  rw [pkgFold_spec (pmCounts env) 0 [] (by simpa using hsum)]
  by_cases h0 : specTotal (pmCounts env) = 0
  · simp [h0, specFragments_of_total_zero h0, List.intercalate]
  · simp [h0]

/-- A concrete environment where dpkg reports 120 installed entries and
flatpak reports 40 applications, and no other manager is present. -/
def pkgDemoEnv : Env :=
  ⟨fun p =>
      if p = str "/var/lib/dpkg/status" then
        some (writelnAll
          (List.replicate 120 (str "Status: install ok installed")))
      else none,
   fun p => p == str "/var/lib/dpkg/status",
   fun p => p == str "/usr/bin/flatpak",
   fun v => if v = str "PATH" then some (str "/usr/bin") else none,
   fun c _ =>
      if c = str "flatpak" then
        some (writelnAll (List.replicate 40 (str "org.demo.App")))
      else none,
   fun _ => none⟩

set_option maxRecDepth 200000 in
/-- C6 witness: with dpkg at 120 and flatpak at 40, the total is 160
and the label is exactly 120 (dpkg), 40 (flatpak). -/
theorem claim_C6_witness :
    specTotal (pmCounts pkgDemoEnv) < 2 ^ 32 ∧
      detect_packages_fast pkgDemoEnv =
        (160, str "120 (dpkg), 40 (flatpak)") :=
  ⟨by decide,
   by
    rw [claim_C6_package_aggregation pkgDemoEnv (by decide)]
    decide⟩

/-- A host with every source absent: no readable file, no existing
path, nothing on PATH, no environment variable, no spawnable utility,
no listable directory. -/
def absentEnv : Env :=
  ⟨fun _ => none, fun _ => false, fun _ => false, fun _ => none,
   fun _ _ => none, fun _ => none⟩

/-- C1 counterexample: on the all-absent host the OS-identity probe
returns the literal unknown and the CPU probe returns the literal
Unknown CPU, so neither yields the empty string the claim demands. -/
theorem claim_C1_counterexample :
    detect_distro .linux absentEnv = str "unknown" ∧
      cpuValue absentEnv = str "Unknown CPU" ∧
      ¬detect_distro .linux absentEnv = [] ∧
      ¬cpuValue absentEnv = [] := by
  decide

/-- C1 amended. On a host where every underlying source is absent,
every probe returns its zero value without failing, except that the
OS-identity probe returns the literal unknown and the CPU probe
returns the literal Unknown CPU: user, host, kernel, model and shell
stay empty, memory stays the zero pair, resolution is the zero pair,
uptime stays zero, the GPU list is empty and the package count is zero
with an empty label. Totality of the embedded probes is the no-crash
part of the claim. -/
theorem claim_C1_absent_defaults (env : Env)
    (hrf : ∀ p, env.readFile p = none)
    (hpe : ∀ p, env.pathExists p = false)
    (_hif : ∀ p, env.isFile p = false)
    (hge : ∀ v, env.getEnv v = none)
    (hco : ∀ c a, env.cmdOut c a = none)
    (hrd : ∀ d, env.readDir d = none) :
    userHostValues env ([], []) = ([], []) ∧
      detect_distro .linux env = str "unknown" ∧
      kernelValue env [] = [] ∧
      modelLoop env modelFiles [] = [] ∧
      cpuValue env = str "Unknown CPU" ∧
      memValues env (0, 0) = (0, 0) ∧
      detect_resolution env = (0, 0) ∧
      shellValue env [] = [] ∧
      uptimeValue env 0 = 0 ∧
      detect_gpus env = [] ∧
      detect_packages_fast env = (0, []) := by
  refine ⟨?_, ?_, ?_, ?_, ?_, ?_, ?_, ?_, ?_, ?_, ?_⟩
  · simp [userHostValues, hge, hrf, hco]
  · simp [detect_distro, hrf, linuxMarkers, hpe]
  · simp [kernelValue, hrf, hco]
  · simp [modelLoop, modelFiles, hrf]
  · simp [cpuValue, hrf]
  · simp [memValues, hrf]
  · simp [detect_resolution, hrf, xrandrPart, hge, which]
  · simp [shellValue, hge]
  · simp [uptimeValue, hrf]
  · simp [detect_gpus, which, hge, drmScan, hrd]
  · simp [detect_packages_fast, pmCounts, dpkgCount, pacmanCount, rpmCount,
      flatpakCount, snapCount, which, hge, hpe, hrf, hco, pkgFold]

/-- C1 witness: the amended statement at the concrete absent host. -/
theorem claim_C1_witness :
    userHostValues absentEnv ([], []) = ([], []) ∧
      detect_distro .linux absentEnv = str "unknown" ∧
      kernelValue absentEnv [] = [] ∧
      modelLoop absentEnv modelFiles [] = [] ∧
      cpuValue absentEnv = str "Unknown CPU" ∧
      memValues absentEnv (0, 0) = (0, 0) ∧
      detect_resolution absentEnv = (0, 0) ∧
      shellValue absentEnv [] = [] ∧
      uptimeValue absentEnv 0 = 0 ∧
      detect_gpus absentEnv = [] ∧
      detect_packages_fast absentEnv = (0, []) :=
  claim_C1_absent_defaults absentEnv (fun _ => rfl) (fun _ => rfl)
    (fun _ => rfl) (fun _ => rfl) (fun _ _ => rfl) (fun _ => rfl)

/-- C3. When the GPU task is launched and its join reports failure
while the resolution and package tasks are launched and join normally,
the GPU field keeps its value from before the parallel phase and the
resolution and package results are still applied. -/
theorem claim_C3_gpu_failure_isolated (cfg : Configuration) (env : Env)
    (pan : Panics) (info : SystemInfo)
    (hg : cfg.show_gpu = true) (hr : cfg.show_resolution = true)
    (hp : cfg.show_pkgs = true) (pg : pan.gpu = true) (pr : pan.res = false)
    (pp : pan.pkgs = false) :
    (populate cfg env pan info).gpu_models = info.gpu_models ∧
      (populate cfg env pan info).screen_width = (detect_resolution env).1 ∧
      (populate cfg env pan info).screen_height = (detect_resolution env).2 ∧
      (populate cfg env pan info).pkgs = (detect_packages_fast env).1 ∧
      (populate cfg env pan info).pkgman_name =
        (detect_packages_fast env).2 := by
  unfold populate
  rw [hg, hr, hp, pg, pr, pp]
  exact ⟨cheapPass_gpu_models env info, rfl, rfl, rfl, rfl⟩

/-- C3 witness: the isolation property at a concrete run whose GPU
task panicked. -/
theorem claim_C3_witness :
    (populate defaultConfig absentEnv ⟨true, false, false⟩
        emptyInfo).gpu_models = emptyInfo.gpu_models ∧
      (populate defaultConfig absentEnv ⟨true, false, false⟩
          emptyInfo).screen_width = (detect_resolution absentEnv).1 ∧
      (populate defaultConfig absentEnv ⟨true, false, false⟩
          emptyInfo).screen_height = (detect_resolution absentEnv).2 ∧
      (populate defaultConfig absentEnv ⟨true, false, false⟩
          emptyInfo).pkgs = (detect_packages_fast absentEnv).1 ∧
      (populate defaultConfig absentEnv ⟨true, false, false⟩
          emptyInfo).pkgman_name = (detect_packages_fast absentEnv).2 :=
  claim_C3_gpu_failure_isolated defaultConfig absentEnv ⟨true, false, false⟩
    emptyInfo rfl rfl rfl rfl rfl rfl

/-- The OS probe event occurs in the populate trace exactly when the
identity was empty on entry. -/
theorem probeOS_mem_populateTrace (cfg : Configuration) (pan : Panics)
    (b : Bool) : PEvent.probeOS ∈ populateTrace cfg pan b ↔ b = true := by
  obtain ⟨c1, c2, c3, c4, c5, sg, c7, sr, c9, sp, c11, c12, c13⟩ := cfg
  obtain ⟨pg, pr, pp⟩ := pan
  simp only [populateTrace]
  cases sg <;> cases sr <;> cases sp <;> cases pg <;> cases pr <;>
    cases pp <;> cases b <;> decide

/-- C9. With a non-empty OS identity on entry, populate leaves the
identity unchanged and never performs the OS probe; the probe runs
exactly when the identity is the empty string, in which case the
detected distribution is written. -/
theorem claim_C9_os_override (cfg : Configuration) (env : Env)
    (pan : Panics) (info : SystemInfo) :
    ((populate cfg env pan info).os_name =
        if info.os_name = [] then detect_distro .linux env
        else info.os_name) ∧
      (PEvent.probeOS ∈ populateTrace cfg pan (decide (info.os_name = [])) ↔
        info.os_name = []) := by
  refine ⟨populate_os_name cfg env pan info, ?_⟩
  rw [probeOS_mem_populateTrace]
  exact decide_eq_true_iff

/-- C9 witness: the override behaviour at a concrete configuration,
host and registry. -/
theorem claim_C9_witness :
    ((populate defaultConfig absentEnv noPanics emptyInfo).os_name =
        if emptyInfo.os_name = [] then detect_distro .linux absentEnv
        else emptyInfo.os_name) ∧
      (PEvent.probeOS ∈
          populateTrace defaultConfig noPanics
            (decide (emptyInfo.os_name = [])) ↔
        emptyInfo.os_name = []) :=
  claim_C9_os_override defaultConfig absentEnv noPanics emptyInfo

/-- C10. The parallel resolution task runs the same detect_resolution
function the cheap pass ran, so for a fixed environment the screen
fields after populate do not depend on whether the resolution display
option, and with it the parallel task, is enabled. -/
theorem claim_C10_resolution_equivalence (cfg : Configuration) (env : Env)
    (pan : Panics) (info : SystemInfo) :
    ((cheapPass env info).screen_width = (detect_resolution env).1 ∧
      (cheapPass env info).screen_height = (detect_resolution env).2) ∧
      (populate { cfg with show_resolution := true } env pan
            info).screen_width =
        (populate { cfg with show_resolution := false } env pan
            info).screen_width ∧
      (populate { cfg with show_resolution := true } env pan
            info).screen_height =
        (populate { cfg with show_resolution := false } env pan
            info).screen_height := by
  refine ⟨cheapPass_screen env info, ?_, ?_⟩
  · rw [(populate_screen _ env pan info).1, (populate_screen _ env pan info).1]
  · rw [(populate_screen _ env pan info).2, (populate_screen _ env pan info).2]

/-- C10 witness: the equivalence at a concrete configuration and host. -/
theorem claim_C10_witness :
    ((cheapPass absentEnv emptyInfo).screen_width =
        (detect_resolution absentEnv).1 ∧
      (cheapPass absentEnv emptyInfo).screen_height =
        (detect_resolution absentEnv).2) ∧
      (populate { defaultConfig with show_resolution := true } absentEnv
            noPanics emptyInfo).screen_width =
        (populate { defaultConfig with show_resolution := false } absentEnv
            noPanics emptyInfo).screen_width ∧
      (populate { defaultConfig with show_resolution := true } absentEnv
            noPanics emptyInfo).screen_height =
        (populate { defaultConfig with show_resolution := false } absentEnv
            noPanics emptyInfo).screen_height :=
  claim_C10_resolution_equivalence defaultConfig absentEnv noPanics emptyInfo

/-- The ordering property claim C8 asserts for the parallel phase:
every application of a task result comes after every join. -/
def appliedAfterAllJoins (t : List PEvent) : Prop :=
  ∀ i j ti tj, t.get? i = some (PEvent.applyT ti) →
    t.get? j = some (PEvent.joinT tj) → j < i

/-- C8 counterexample: in the run with every display option enabled
and no failures, the GPU result is applied at position 13 of the
populate trace while the packages task joins later, at position 16, so
results are not applied strictly after all joins. -/
theorem claim_C8_counterexample :
    ¬appliedAfterAllJoins (populateTrace defaultConfig noPanics true) := by
  intro h
  have h1316 := h 13 16 TaskId.gpu TaskId.pkgs (by decide) (by decide)
  omega

/-- C8 amended. In the populate trace, every cheap probe completes
before any task launch, every launch precedes every join and every
application, and a task result is applied only after the join of that
same task; the result of an earlier join may however be applied before
a later task joins. Since populate returns only after the whole trace,
presentation still never observes a partially updated registry. -/
theorem claim_C8_ordering (cfg : Configuration) (pan : Panics)
    (osEmpty : Bool) :
    (populateTrace cfg pan osEmpty).Pairwise
        (fun a b => isLaunch a = true → isProbe b = false) ∧
      (populateTrace cfg pan osEmpty).Pairwise
        (fun a b => isJoin a = true ∨ isApply a = true →
          isLaunch b = false ∧ isProbe b = false) ∧
      (∀ tid : TaskId,
        (populateTrace cfg pan osEmpty).Pairwise
          (fun a b => a = PEvent.applyT tid → b ≠ PEvent.joinT tid) ∧
        (PEvent.applyT tid ∈ populateTrace cfg pan osEmpty →
          PEvent.joinT tid ∈ populateTrace cfg pan osEmpty)) := by
  obtain ⟨c1, c2, c3, c4, c5, sg, c7, sr, c9, sp, c11, c12, c13⟩ := cfg
  obtain ⟨pg, pr, pp⟩ := pan
  simp only [populateTrace]
  refine ⟨?_, ?_, ?_⟩
  · cases sg <;> cases sr <;> cases sp <;> cases pg <;> cases pr <;>
      cases pp <;> cases osEmpty <;> decide
  · cases sg <;> cases sr <;> cases sp <;> cases pg <;> cases pr <;>
      cases pp <;> cases osEmpty <;> decide
  · intro tid
    cases tid <;> cases sg <;> cases sr <;> cases sp <;> cases pg <;>
      cases pr <;> cases pp <;> cases osEmpty <;> exact ⟨by decide, by decide⟩

/-- C8 witness: the amended ordering at the all-enabled, no-failure
run. -/
theorem claim_C8_witness :
    (populateTrace defaultConfig noPanics true).Pairwise
      (fun a b => isLaunch a = true → isProbe b = false) :=
  (claim_C8_ordering defaultConfig noPanics true).1

end UwuFetch
